import Mathlib

/-!
Verification of the EA-to-PlantUML exporter: the monolithic script
`src/ea2puml.py` and the refactored `src/ea2puml` package. The geometry
kernel, alias allocator, grouping resolver, connector resolution and the
label/handler dispatch logic are embedded shallowly below; the theorems at
the end settle the specification claims about them.
-/

/-- `puml_escape_inline`, defined identically in src/ea2puml.py lines 31-34
and src/ea2puml/utils.py lines 6-9: double backslashes, then escape double
quotes. -/
def puml_escape_inline (text : String) : String :=
  (text.replace "\\" "\\\\").replace "\"" "\\\""

namespace Mono

/-- Axis-aligned rectangle as produced by `EAPlantUMLExporter.rect`
(src/ea2puml.py lines 166-172), already normalized to the top-left
coordinate space. -/
structure Rect where
  x : Int
  y : Int
  w : Int
  h : Int
deriving DecidableEq

/-- `EAPlantUMLExporter.area` (src/ea2puml.py lines 178-180):
`max(0, w) * max(0, h)`. -/
def area (r : Rect) : Int := max 0 r.w * max 0 r.h

/-- `EAPlantUMLExporter.overlap_area` (src/ea2puml.py lines 182-190). -/
def overlap_area (a b : Rect) : Int :=
  let x1 := max a.x b.x
  let y1 := max a.y b.y
  let x2 := min (a.x + a.w) (b.x + b.w)
  let y2 := min (a.y + a.h) (b.y + b.h)
  if x2 ≤ x1 ∨ y2 ≤ y1 then 0 else (x2 - x1) * (y2 - y1)

/-- `EAPlantUMLExporter.center` (src/ea2puml.py lines 174-176). Python `//`
is floor division, hence `Int.fdiv`. -/
def center (r : Rect) : Int × Int :=
  (r.x + Int.fdiv r.w 2, r.y + Int.fdiv r.h 2)

/-- `EAPlantUMLExporter.center_inside` (src/ea2puml.py lines 192-198):
closed-bounds containment of the centroid. -/
def center_inside (inner_rect outer_rect : Rect) : Bool :=
  let c := center inner_rect
  decide (c.1 ≥ outer_rect.x) && decide (c.2 ≥ outer_rect.y) &&
  decide (c.1 ≤ outer_rect.x + outer_rect.w) &&
  decide (c.2 ≤ outer_rect.y + outer_rect.h)

/-- The membership test of `EAPlantUMLExporter.gather`
(src/ea2puml.py lines 263-265):
`self.center_inside(erect, preg) or (ov >= 0.5 * self.area(erect))`,
with the Python float product `0.5 * area` modeled exactly in `ℚ`. -/
def member_candidate (erect preg : Rect) : Bool :=
  center_inside erect preg ||
    decide ((overlap_area erect preg : ℚ) ≥ (1 / 2 : ℚ) * (area erect : ℚ))

/-- The element record assembled by `gather` (src/ea2puml.py lines 223-235),
restricted to the fields the grouping and connector rendering read
(the source field `alias` is spelled `alias_` because `alias` is a reserved
word here). -/
structure Element where
  guid : String
  name : String
  type : String
  stereotype : String := ""
  alias_ : String := ""
  rect : Rect
deriving DecidableEq

/-- Second pass of `gather` (src/ea2puml.py lines 255-268): the geometric
candidate members recorded in `members_in_pkg` for one package. -/
def members_in_pkg (elements : List Element) (pkg : Element) : List String :=
  ((elements.filter fun el =>
      el.guid != pkg.guid && member_candidate el.rect pkg.rect).map Element.guid)

/-- The `self.packages` insertion order (src/ea2puml.py lines 238-245):
every gathered element whose type is Package, in ingestion order. -/
def packages (elements : List Element) : List Element :=
  elements.filter fun el => el.type == "Package"

/-- The Python sort key comparison `(r["y"], r["x"])` used by
`render_elements_grouped` (src/ea2puml.py lines 407-411). -/
def pkg_le (p q : Element) : Bool :=
  decide (p.rect.y < q.rect.y) ||
    (decide (p.rect.y = q.rect.y) && decide (p.rect.x ≤ q.rect.x))

/-- `sorted_pkgs` of `render_elements_grouped` (src/ea2puml.py line 411);
Python `sorted` is a stable merge sort. -/
def sorted_pkgs (elements : List Element) : List Element :=
  (packages elements).mergeSort pkg_le

/-- The member loop of one package block in `render_elements_grouped`
(src/ea2puml.py lines 421-429): members whose element type is Package are
skipped; every other candidate member has its declaration emitted inside the
block and its guid added to `emitted`. The `none` branch of the lookup is
unreachable because member guids come from the element table itself. -/
def emitted_members (elements : List Element) (pkg : Element) : List String :=
  (members_in_pkg elements pkg).filter fun g =>
    match elements.find? (fun el => el.guid == g) with
    | some el => el.type != "Package"
    | none => false

/-- All guids accumulated in the `emitted` set over the sorted package
blocks (src/ea2puml.py line 429). -/
def emitted_guids (elements : List Element) : List String :=
  (sorted_pkgs elements).flatMap (emitted_members elements)

/-- The leftover loop of `render_elements_grouped`
(src/ea2puml.py lines 434-441). -/
def leftovers (elements : List Element) : List Element :=
  elements.filter fun el =>
    el.type != "Package" && !((emitted_guids elements).contains el.guid)

/-- How many times a guid is emitted as a member declaration across all
package blocks. -/
def member_occurrences (elements : List Element) (g : String) : Nat :=
  (emitted_guids elements).count g

/-- Concrete layout with two overlapping package regions: `exP2` encloses
both `exP1`'s interior and the class shape `exS`, and `exS` lies inside
both packages. -/
def exP1 : Element :=
  { guid := "P1", name := "P1", type := "Package", rect := ⟨0, 0, 100, 100⟩ }

/-- Second, larger package of the overlapping layout. -/
def exP2 : Element :=
  { guid := "P2", name := "P2", type := "Package", rect := ⟨5, 5, 190, 190⟩ }

/-- The class shape claimed by both packages of the overlapping layout. -/
def exS : Element :=
  { guid := "S", name := "S", type := "Class", rect := ⟨10, 10, 10, 10⟩ }

/-- The full overlapping layout, in ingestion order. -/
def overlap_layout : List Element := [exP1, exP2, exS]

/-- Exporter configuration fields read by `render_connectors`
(src/ea2puml.py lines 117-140). -/
structure MonoConfig where
  include_colors : Bool := true
  edge_labels : String := "both"
  alias_mode : String := "human"
deriving DecidableEq

/-- Connector record assembled by the connector loop of `gather`
(src/ea2puml.py lines 282-296). -/
structure ConnRec where
  id : String
  name : String := ""
  type : String := ""
  stereotype : String := ""
  direction : String := "Unspecified"
  source_uid : String
  target_uid : String
  line_hex : Option String := none
  hidden_labels : Bool := false
deriving DecidableEq

/-- `relation_for_type` (src/ea2puml.py lines 94-112). -/
def relation_for_type (conn_type : String) : String × String :=
  let t := conn_type.toLower
  if t = "association" then ("--", ">")
  else if t = "dependency" then ("..", ">")
  else if t = "realization" ∨ t = "realisation" then ("..", "|>")
  else if t = "generalization" ∨ t = "inheritance" then ("--", "|>")
  else if t = "aggregation" then ("o-", ">")
  else if t = "composition" then ("*-", ">")
  else if t = "informationflow" ∨ t = "information flow" then ("..", ">")
  else if t = "controlflow" ∨ t = "control flow" ∨ t = "flow" then ("-", "->")
  else ("--", ">")

/-- The base relation text of `render_connectors`
(src/ea2puml.py lines 457-466): arrowheads implied by the type, otherwise
derived from the direction attribute by substring tests. -/
def rel_for_conn (c : ConnRec) : String :=
  let sh := relation_for_type c.type
  if sh.2 = "|>" then sh.1 ++ sh.2
  else if sh.2 = "->" then sh.1 ++ "->"
  else if c.direction.containsSubstr "Source".toSubstring ||
          c.direction.containsSubstr "Bi-Directional".toSubstring then
    sh.1 ++ sh.2
  else sh.1 ++ "-"

/-- The line-color rewriting of `render_connectors`
(src/ea2puml.py lines 468-478). -/
def rel_with_color (cfg : MonoConfig) (c : ConnRec) (rel : String) : String :=
  match cfg.include_colors, c.line_hex with
  | true, some hex =>
    if hex = "" then rel
    else if rel.startsWith "--" then "-[" ++ hex ++ "]-" ++ rel.drop 2
    else if rel.startsWith ".." then ".[" ++ hex ++ "]." ++ rel.drop 2
    else if rel.startsWith "*-" then "*[" ++ hex ++ "]-" ++ rel.drop 2
    else if rel.startsWith "o-" then "o[" ++ hex ++ "]-" ++ rel.drop 2
    else if rel.startsWith "-" then "-[" ++ hex ++ "]" ++ rel.drop 1
    else rel
  | _, _ => rel

/-- The label construction of `render_connectors`
(src/ea2puml.py lines 480-485): the name part is kept only when the label
policy includes names, the link was not flagged hidden-labels and the name
is nonempty; the stereotype part only depends on the policy and
nonemptiness; parts are joined by a single space after a colon. -/
def conn_label (edge_labels : String) (c : ConnRec) : String :=
  let parts :=
    (if (edge_labels = "name" ∨ edge_labels = "both") ∧
        c.hidden_labels = false ∧ c.name ≠ "" then [c.name] else [])
    ++ (if (edge_labels = "stereotype" ∨ edge_labels = "both") ∧
           c.stereotype ≠ "" then ["<<" ++ c.stereotype ++ ">>"] else [])
  if parts = [] then "" else " : " ++ String.intercalate " " parts

/-- `ref_token` (src/ea2puml.py lines 330-333). -/
def ref_token (cfg : MonoConfig) (el : Element) : String :=
  if cfg.alias_mode = "name" then
    "\"" ++ puml_escape_inline el.name ++ "\""
  else el.alias_

/-- `render_connectors` (src/ea2puml.py lines 446-489): connectors whose
endpoint guids are unknown to `self.elements` are skipped. -/
def render_connectors (cfg : MonoConfig) (elements : List Element)
    (conns : List ConnRec) : String :=
  let out := conns.filterMap fun c =>
    match elements.find? (fun el => el.guid == c.source_uid),
          elements.find? (fun el => el.guid == c.target_uid) with
    | some src_el, some dst_el =>
      some (ref_token cfg src_el ++ " " ++
            rel_with_color cfg c (rel_for_conn c) ++ " " ++
            ref_token cfg dst_el ++ conn_label cfg.edge_labels c)
    | _, _ => none
  String.intercalate "\n" (out ++ [""])

/-- The diagram-link fields read by the connector loop of `gather`
(src/ea2puml.py lines 271-296); `line_hex` is the already-converted color. -/
structure DLink where
  connectorId : Int
  isHidden : Bool := false
  sourceInstanceUID : String := ""
  targetInstanceUID : String := ""
  line_hex : Option String := none
  hidden_labels : Bool := false
deriving DecidableEq

/-- The connector-object fields read by `gather` and
`resolve_endpoint_uid` (src/ea2puml.py lines 201-207 and 282-296). -/
structure DConn where
  clientId : Int
  supplierId : Int
  name : String := ""
  type : String := ""
  stereotype : String := ""
  direction : String := "Unspecified"
deriving DecidableEq

/-- `EAPlantUMLExporter.resolve_endpoint_uid` (src/ea2puml.py lines
201-207): first the direct placed-shape instance UID, then the
`elemid_to_instuid` index keyed by the model element id. -/
def resolve_endpoint_uid (elements : List Element)
    (elemid_to_instuid : List (Int × String)) (dlnk : DLink) (dconn : DConn)
    (which : String) : Option String :=
  let uid := if which = "source" then dlnk.sourceInstanceUID
             else dlnk.targetInstanceUID
  if uid ≠ "" ∧ (elements.find? fun el => el.guid == uid).isSome then some uid
  else
    elemid_to_instuid.lookup
      (if which = "source" then dconn.clientId else dconn.supplierId)

/-- One iteration of the connector loop of `gather`
(src/ea2puml.py lines 271-296): hidden links and links with an unresolved
(or empty) endpoint produce no record. -/
def gather_connector (include_colors : Bool) (elements : List Element)
    (elemid_to_instuid : List (Int × String)) (lc : DLink × DConn) :
    Option ConnRec :=
  if lc.1.isHidden then none
  else
    match resolve_endpoint_uid elements elemid_to_instuid lc.1 lc.2 "source",
          resolve_endpoint_uid elements elemid_to_instuid lc.1 lc.2 "target" with
    | some s, some t =>
      if s = "" ∨ t = "" then none
      else some { id := Int.repr lc.1.connectorId, name := lc.2.name,
                  type := lc.2.type, stereotype := lc.2.stereotype,
                  direction := if lc.2.direction = "" then "Unspecified"
                               else lc.2.direction,
                  source_uid := s, target_uid := t,
                  line_hex := if include_colors then lc.1.line_hex else none,
                  hidden_labels := lc.1.hidden_labels }
    | _, _ => none

/-- The whole connector loop of `gather` over the diagram links. -/
def gather_connectors (include_colors : Bool) (elements : List Element)
    (elemid_to_instuid : List (Int × String)) (links : List (DLink × DConn)) :
    List ConnRec :=
  links.filterMap (gather_connector include_colors elements elemid_to_instuid)

/-- Diagram element list for the dangling-connector example. -/
def exConnElems : List Element :=
  [{ guid := "A", name := "A", type := "Class", rect := ⟨0, 0, 10, 10⟩ }]

/-- A diagram link whose target instance UID is unknown to the diagram and
whose supplier element id is missing from the index. -/
def exDangling : DLink × DConn :=
  ({ connectorId := 7, targetInstanceUID := "ghost",
     sourceInstanceUID := "A" },
   { clientId := 1, supplierId := 99 })

/-- A connector with both name and stereotype, flagged hidden-labels at the
source. -/
def exConnHidden : ConnRec :=
  { id := "1", name := "flow", stereotype := "use", type := "Dependency",
    source_uid := "A", target_uid := "B", hidden_labels := true }

end Mono

namespace Utils

mutual

/-- `re.sub(pattern, "_", s)` where the pattern matches a maximal run of
characters rejected by `keep`: kept characters pass through, each maximal
rejected run becomes a single underscore. Used by `slugify_name`
(src/ea2puml/utils.py line 20, src/ea2puml.py line 53) and
`_sanitize_filename` (src/ea2puml/main.py lines 12-17). -/
def collapse_runs (keep : Char → Bool) : List Char → List Char
  | [] => []
  | c :: cs =>
    if keep c then c :: collapse_runs keep cs else '_' :: skip_run keep cs

/-- Consumes the rest of a rejected run for `collapse_runs`. -/
def skip_run (keep : Char → Bool) : List Char → List Char
  | [] => []
  | c :: cs =>
    if keep c then c :: collapse_runs keep cs else skip_run keep cs

end

/-- Characters kept verbatim by the `slugify_name` regex `[^A-Za-z0-9_]+`. -/
def word_char (c : Char) : Bool := c.isAlphanum || c == '_'

/-- Python `str.strip()`: leading and trailing whitespace removed. -/
def py_strip (l : List Char) : List Char :=
  ((l.dropWhile Char.isWhitespace).reverse.dropWhile Char.isWhitespace).reverse

/-- `slugify_name` (src/ea2puml/utils.py lines 19-23, identical in
src/ea2puml.py lines 52-56). -/
def slugify_name (name : String) : String :=
  let s := (collapse_runs word_char (py_strip name.data)).asString
  let s := if s = "" || s.front.isDigit then "E_" ++ s else s
  if s.length > 40 then s.take 40 else s

/-- The base slug of `AliasFactory.make` in human mode:
`slugify_name(name) or "E"` (src/ea2puml/utils.py line 34). -/
def base_slug (name : String) : String :=
  if slugify_name name = "" then "E" else slugify_name name

/-- `sanitize_alias` (src/ea2puml/utils.py lines 11-17, identical in
src/ea2puml.py lines 36-42). The Python function reads two values that are
not functions of the guid: `urand` stands for `abs(hash(os.urandom(4)))`,
fresh random bytes hashed at every call, and `guid_hash` for
`abs(hash(guid))`, whose salt changes from process to process; both are
passed here as explicit inputs. -/
def sanitize_alias (urand : Nat) (guid_hash : Nat) (guid : String) : String :=
  if guid = "" then "E_" ++ Nat.repr urand
  else
    let g := (guid.data.filter Char.isAlphanum).asString
    let g := if g = "" then "E" ++ Nat.repr (guid_hash % 10 ^ 8) else g
    "E_" ++ g.take 16

/-- One `AliasFactory.make` call in human mode
(src/ea2puml/utils.py lines 33-37, identical in src/ea2puml.py lines
65-69): the returned alias and the updated `counts` table. -/
def make_human (counts : String → Nat) (name : String) : String × (String → Nat) :=
  let base := base_slug name
  let n := counts base
  (if n = 0 then base else base ++ "_" ++ Nat.repr (n + 1),
   fun b => if b = base then n + 1 else counts b)

/-- `AliasFactory.make` (src/ea2puml/utils.py lines 30-38): mode dispatch. -/
def make (mode : String) (urand guid_hash : Nat) (counts : String → Nat)
    (guid name : String) : String × (String → Nat) :=
  if mode = "uuid" then (sanitize_alias urand guid_hash guid, counts)
  else if mode = "human" then make_human counts name
  else ("", counts)

/-- The human-mode aliases allocated for a list of display names, threading
the factory state through successive `make` calls as `gather` does. -/
def human_aliases (counts : String → Nat) : List String → List String
  | [] => []
  | n :: ns => (make_human counts n).1 :: human_aliases (make_human counts n).2 ns

/-- The fresh `counts` table of `AliasFactory.__init__`. -/
def zero_counts : String → Nat := fun _ => 0

/-- The factory state after allocating a list of names. -/
def counts_after (counts : String → Nat) : List String → (String → Nat)
  | [] => counts
  | n :: ns => counts_after (make_human counts n).2 ns

/-- Number of names in the list sharing a given base slug. -/
def count_base (names : List String) (b : String) : Nat :=
  (names.filter fun n => base_slug n == b).length

/-- Decimal decode of a digit string; inverse of `Nat.repr` on its image,
used to prove decimal rendering injective. -/
def dec_decode (l : List Char) : Nat :=
  l.foldl (fun a c => 10 * a + (c.toNat - 48)) 0

end Utils

namespace Ea2puml

/-- Python truthiness of an optional string: `None` and `""` are falsy. -/
def truthy : Option String → Bool
  | some str => str != ""
  | none => false

/-- `Config` (src/ea2puml/config.py lines 7-24), without the filesystem
path type. -/
structure Config where
  outdir : String := "output"
  filename : Option String := none
  include_tags : List String := []
  no_colors : Bool := false
  element_stereo : Option String := none
  edge_labels : Option String := none
  direction : Option String := none
  explore : Bool := false
  skin : Option String := none
  autolayout : Option String := none
  alias_mode : Option String := none
  interface_style : Option String := none
deriving DecidableEq

/-- `Element` (src/ea2puml/models.py lines 14-24); the source field `alias`
is spelled `alias_` because `alias` is a reserved word here. -/
structure Element where
  id : Int
  guid : String
  name : String
  type : String
  stereotype : Option String := none
  color : Option String := none
  alias_ : Option String := none
deriving DecidableEq

/-- `ConnectorEnd` (src/ea2puml/models.py lines 33-37). -/
structure ConnectorEnd where
  element_id : Int
deriving DecidableEq

/-- `Connector` (src/ea2puml/models.py lines 39-48). -/
structure Connector where
  id : Int
  type : String
  stereotype : Option String := none
  color : Option String := none
  source : ConnectorEnd
  target : ConnectorEnd
  labels : List (String × String) := []
deriving DecidableEq

/-- `Note` (src/ea2puml/models.py lines 26-31). -/
structure Note where
  id : Int
  text : String
deriving DecidableEq

/-- `Diagram` (src/ea2puml/models.py lines 50-59). -/
structure Diagram where
  id : Int
  name : String
  type : String
  elements : List Element := []
  connectors : List Connector := []
  notes : List Note := []
  direction : Option String := none
deriving DecidableEq

/-- The three handler classes registered at import time
(src/ea2puml/handlers). -/
inductive Handler
  | component
  | sequence
  | usecase
deriving DecidableEq

/-- `_REGISTRY` after `main.py` imports the handler modules
(src/ea2puml/main.py line 9): `register` stores each class under its
stripped, lowercased diagram-type key
(src/ea2puml/handler_registry.py lines 10-14). -/
def _REGISTRY : List (String × Handler) :=
  [("component", Handler.component), ("sequence", Handler.sequence),
   ("use case", Handler.usecase)]

/-- `resolve` (src/ea2puml/handler_registry.py lines 17-22). The Python
`KeyError` message interpolates `diagram_type!r`; the repr quoting around
the type tag is elided here. -/
def resolve (diagram_type : String) : Except String Handler :=
  match _REGISTRY.lookup diagram_type.trim.toLower with
  | some h => Except.ok h
  | none =>
    Except.error ("No handler registered for diagram type: " ++ diagram_type)

/-- `_index` (src/ea2puml/handlers/component.py lines 9-10): a Python dict
comprehension keyed by element id, so a later element with the same id wins. -/
def _index (diagram : Diagram) (i : Int) : Option Element :=
  diagram.elements.reverse.find? (fun el => el.id == i)

/-- `_ref` (src/ea2puml/handlers/component.py lines 12-15): quoted escaped
name in name mode or when the alias is missing or empty. -/
def _ref (el : Element) (alias_mode : Option String) : String :=
  if alias_mode = some "name" then "\"" ++ puml_escape_inline el.name ++ "\""
  else if truthy el.alias_ then el.alias_.getD ""
  else "\"" ++ puml_escape_inline el.name ++ "\""

/-- `ComponentDiagramHandler.render`
(src/ea2puml/handlers/component.py lines 17-57). -/
def component_render (diagram : Diagram) (cfg : Config) : List String :=
  (if truthy cfg.direction then [cfg.direction.getD ""] else [])
  ++ diagram.elements.map (fun el =>
      let stereo := if truthy el.stereotype ∧ truthy cfg.element_stereo then
          " <<" ++ el.stereotype.getD "" ++ ">>"
        else ""
      let alias_part := if truthy el.alias_ ∧ cfg.alias_mode ≠ some "name" then
          " as " ++ el.alias_.getD ""
        else ""
      "component \"" ++ puml_escape_inline el.name ++ "\"" ++ stereo ++ alias_part)
  ++ diagram.connectors.filterMap (fun c =>
      match _index diagram c.source.element_id, _index diagram c.target.element_id with
      | some src_el, some dst_el =>
        let parts :=
          (if (cfg.edge_labels = some "name" ∨ cfg.edge_labels = some "both") ∧
              truthy (c.labels.lookup "name") then
            [(c.labels.lookup "name").getD ""] else [])
          ++ (if (cfg.edge_labels = some "stereotype" ∨ cfg.edge_labels = some "both") ∧
                 truthy c.stereotype then
            ["<<" ++ c.stereotype.getD "" ++ ">>"] else [])
        let label := if parts = [] then "" else " : " ++ String.intercalate " / " parts
        some (_ref src_el cfg.alias_mode ++ " --> " ++ _ref dst_el cfg.alias_mode ++ label)
      | _, _ => none)
  ++ diagram.notes.map (fun n => "note \"" ++ n.text ++ "\" as N" ++ Int.repr n.id)

/-- `SequenceDiagramHandler.render`
(src/ea2puml/handlers/sequence.py lines 17-49). -/
def sequence_render (diagram : Diagram) (cfg : Config) : List String :=
  diagram.elements.map (fun el =>
      let name := puml_escape_inline el.name
      if (el.stereotype.getD "").toLower = "actor" ∨ el.type.toLower = "actor" then
        if cfg.alias_mode = some "name" then "actor \"" ++ name ++ "\""
        else "actor \"" ++ name ++ "\" as " ++ (el.alias_.getD "")
      else
        if cfg.alias_mode = some "name" then "participant \"" ++ name ++ "\""
        else "participant \"" ++ name ++ "\" as " ++ (el.alias_.getD ""))
  ++ [""]
  ++ diagram.connectors.filterMap (fun c =>
      match _index diagram c.source.element_id, _index diagram c.target.element_id with
      | some src_el, some dst_el =>
        let label := (c.labels.lookup "name").getD ""
        some (_ref src_el cfg.alias_mode ++ " -> " ++ _ref dst_el cfg.alias_mode ++
              (if label ≠ "" then " : " ++ label else ""))
      | _, _ => none)
  ++ [""]

/-- `UseCaseDiagramHandler.render`
(src/ea2puml/handlers/usecase.py lines 17-37). -/
def usecase_render (diagram : Diagram) (cfg : Config) : List String :=
  diagram.elements.map (fun el =>
      let alias_part := if truthy el.alias_ ∧ cfg.alias_mode ≠ some "name" then
          " as " ++ el.alias_.getD ""
        else ""
      if (el.stereotype.getD "").toLower = "actor" ∨ el.type.toLower = "actor" then
        "actor \"" ++ puml_escape_inline el.name ++ "\"" ++ alias_part
      else
        "usecase \"" ++ puml_escape_inline el.name ++ "\"" ++ alias_part)
  ++ diagram.connectors.filterMap (fun c =>
      match _index diagram c.source.element_id, _index diagram c.target.element_id with
      | some src_el, some dst_el =>
        let label := (c.labels.lookup "name").getD ""
        some (_ref src_el cfg.alias_mode ++ " --> " ++ _ref dst_el cfg.alias_mode ++
              (if label ≠ "" then " : " ++ label else ""))
      | _, _ => none)

/-- Dispatch from the resolved handler class to its `render` method. -/
def render_handler : Handler → Diagram → Config → List String
  | Handler.component => component_render
  | Handler.sequence => sequence_render
  | Handler.usecase => usecase_render

/-- `PlantUMLWriter.start` (src/ea2puml/renderer.py lines 18-29). -/
def writer_start (cfg : Config) (title : String) : List String :=
  ["@startuml"]
  ++ (if truthy cfg.skin then [cfg.skin.getD ""] else [])
  ++ (if truthy cfg.autolayout then [cfg.autolayout.getD ""] else [])
  ++ (if title ≠ "" then ["title \"" ++ puml_escape_inline title ++ "\""] else [])

/-- `PlantUMLWriter.text` (src/ea2puml/renderer.py lines 43-44). -/
def writer_text (buf : List String) : String :=
  String.intercalate "\n" buf ++
    (if buf ≠ [] ∧ ¬ (buf.getLastD "").endsWith "\n" then "\n" else "")

/-- `_sanitize_filename` (src/ea2puml/main.py lines 12-17). -/
def _sanitize_filename (name : String) : String :=
  let s := (Utils.collapse_runs
      (fun c => c.isAlphanum || c == '.' || c == '_' || c == '-')
      (Utils.py_strip name.data)).asString
  if s = "" then "diagram" else s

/-- `run` (src/ea2puml/main.py lines 19-34). The EA adapter call is the
external boundary, so the selected diagram is an input; the returned pair is
the saved file name and its text. On the error path nothing reaches
`PlantUMLWriter.save`, so no file is produced. -/
def run (cfg : Config) (diagram0 : Diagram) : Except String (String × String) :=
  let diagram := if truthy cfg.direction then
      { diagram0 with direction := cfg.direction }
    else diagram0
  match resolve diagram.type with
  | Except.error e => Except.error e
  | Except.ok handler =>
    let buf := writer_start cfg diagram.name
        ++ render_handler handler diagram cfg ++ ["@enduml"]
    let fname := if truthy cfg.filename then cfg.filename.getD ""
                 else _sanitize_filename diagram.name
    Except.ok (fname ++ ".puml", writer_text buf)

end Ea2puml

/-! ## Theorems about the monolithic exporter -/

namespace Mono

/-- Over the integers, the float comparison `ov >= 0.5 * area` is the same
test as `2 * ov >= area`; this lets concrete inputs be evaluated by the
kernel. -/
theorem member_candidate_eq (e p : Rect) :
    member_candidate e p =
      (center_inside e p || decide (2 * overlap_area e p ≥ area e)) := by
  simp only [member_candidate]
  congr 1
  rw [decide_eq_decide]
  constructor <;> intro h
  · exact_mod_cast (by push_cast; linarith :
      ((2 * overlap_area e p : Int) : ℚ) ≥ ((area e : Int) : ℚ))
  · have hq : ((2 * overlap_area e p : Int) : ℚ) ≥ ((area e : Int) : ℚ) := by
      exact_mod_cast h
    push_cast at hq
    linarith

/-- With pairwise distinct guids, `find?` by guid recovers the element. -/
theorem find_guid (elements : List Element)
    (hnd : (elements.map Element.guid).Nodup) (e : Element) (he : e ∈ elements) :
    elements.find? (fun el => el.guid == e.guid) = some e := by
  have hs : (elements.find? (fun el => el.guid == e.guid)).isSome := by
    rw [List.find?_isSome]
    exact ⟨e, he, by simp⟩
  obtain ⟨e2, he2⟩ := Option.isSome_iff_exists.mp hs
  have hmem := List.mem_of_find?_eq_some he2
  have hp := List.find?_some he2
  simp only [beq_iff_eq] at hp
  rw [he2]
  congr 1
  exact List.inj_on_of_nodup_map hnd hmem he hp

/-- Membership in a package's geometric candidate list is exactly the
membership test of `gather`. -/
theorem mem_members_iff (elements : List Element) (pkg : Element)
    (hnd : (elements.map Element.guid).Nodup) (e : Element) (he : e ∈ elements) :
    e.guid ∈ members_in_pkg elements pkg ↔
      (e.guid ≠ pkg.guid ∧ member_candidate e.rect pkg.rect = true) := by
  simp only [members_in_pkg, List.mem_map, List.mem_filter, Bool.and_eq_true,
    bne_iff_ne]
  constructor
  · rintro ⟨e2, ⟨he2, hne, hmc⟩, hg⟩
    have heq := List.inj_on_of_nodup_map hnd he2 he hg
    subst heq
    exact ⟨hne, hmc⟩
  · rintro ⟨hne, hmc⟩
    exact ⟨e, ⟨he, hne, hmc⟩, rfl⟩

/-- A non-package shape is emitted inside a package block exactly when it is
a geometric candidate member of that package. -/
theorem mem_emitted_iff (elements : List Element) (pkg : Element)
    (hnd : (elements.map Element.guid).Nodup) (e : Element) (he : e ∈ elements)
    (ht : e.type ≠ "Package") :
    e.guid ∈ emitted_members elements pkg ↔
      (e.guid ≠ pkg.guid ∧ member_candidate e.rect pkg.rect = true) := by
  rw [← mem_members_iff elements pkg hnd e he]
  simp only [emitted_members, List.mem_filter, find_guid elements hnd e he,
    bne_iff_ne]
  constructor
  · exact fun h => h.1
  · exact fun h => ⟨h, by simpa using ht⟩

/-- The package sort key comparison is transitive. -/
theorem pkg_le_trans (a b c : Element) :
    pkg_le a b = true → pkg_le b c = true → pkg_le a c = true := by
  simp only [pkg_le, Bool.or_eq_true, Bool.and_eq_true, decide_eq_true_eq]
  omega

/-- The package sort key comparison is total. -/
theorem pkg_le_total (a b : Element) : pkg_le a b || pkg_le b a := by
  simp only [pkg_le, Bool.or_eq_true, Bool.and_eq_true, decide_eq_true_eq]
  omega

/-- C3: a shape overlapping a container in exactly half of its own area is a
geometric candidate member (the test is boundary inclusive), while with
strictly less than half overlap it is a candidate only if its centroid lies
inside; `(overlap : ℚ) = 1/2 * area` states the exact 50.0% boundary. -/
theorem half_area_threshold (e p : Rect) :
    ((overlap_area e p : ℚ) = (1 / 2 : ℚ) * (area e : ℚ) →
      member_candidate e p = true) ∧
    ((overlap_area e p : ℚ) < (1 / 2 : ℚ) * (area e : ℚ) →
      center_inside e p = false → member_candidate e p = false) := by
  constructor
  · intro h
    simp only [member_candidate, Bool.or_eq_true, decide_eq_true_eq]
    right
    linarith
  · intro h hc
    simp only [member_candidate, hc, Bool.false_or, decide_eq_false_iff_not]
    intro habs
    linarith

/-- Witness for C3: a 10 by 10 shape overlapping a container in exactly
50 square units is a member; overlapping in 40 with its centroid outside is
not. -/
theorem half_area_threshold_witness :
    member_candidate ⟨0, 0, 10, 10⟩ ⟨0, 0, 5, 10⟩ = true ∧
    member_candidate ⟨0, 0, 10, 10⟩ ⟨6, 0, 4, 10⟩ = false := by
  constructor
  · apply (half_area_threshold _ _).1
    have h1 : overlap_area ⟨0, 0, 10, 10⟩ ⟨0, 0, 5, 10⟩ = 50 := by decide
    have h2 : area (⟨0, 0, 10, 10⟩ : Rect) = 100 := by decide
    rw [h1, h2]
    norm_num
  · apply (half_area_threshold _ _).2
    · have h1 : overlap_area ⟨0, 0, 10, 10⟩ ⟨6, 0, 4, 10⟩ = 40 := by decide
      have h2 : area (⟨0, 0, 10, 10⟩ : Rect) = 100 := by decide
      rw [h1, h2]
      norm_num
    · decide

/-- C9: for a normalized inner rectangle (non-negative width and height),
`center_inside` holds exactly when the centroid computed with truncating
division lies within the closed bounds of the outer rectangle. -/
theorem centroid_inside_closed_bounds (inner_rect outer_rect : Rect)
    (hw : 0 ≤ inner_rect.w) (hh : 0 ≤ inner_rect.h) :
    center_inside inner_rect outer_rect = true ↔
      (outer_rect.x ≤ inner_rect.x + Int.tdiv inner_rect.w 2 ∧
       outer_rect.y ≤ inner_rect.y + Int.tdiv inner_rect.h 2 ∧
       inner_rect.x + Int.tdiv inner_rect.w 2 ≤ outer_rect.x + outer_rect.w ∧
       inner_rect.y + Int.tdiv inner_rect.h 2 ≤ outer_rect.y + outer_rect.h) := by
  have h1 : Int.fdiv inner_rect.w 2 = Int.tdiv inner_rect.w 2 :=
    Int.fdiv_eq_tdiv hw (by decide)
  have h2 : Int.fdiv inner_rect.h 2 = Int.tdiv inner_rect.h 2 :=
    Int.fdiv_eq_tdiv hh (by decide)
  simp only [center_inside, center, h1, h2, Bool.and_eq_true, decide_eq_true_eq,
    ge_iff_le]
  tauto

/-- Witness for C9 at a concrete 4 by 4 shape inside a 10 by 10 container. -/
theorem centroid_inside_closed_bounds_witness :
    center_inside ⟨0, 0, 4, 4⟩ ⟨0, 0, 10, 10⟩ = true ↔
      ((0 : Int) ≤ 0 + Int.tdiv 4 2 ∧ (0 : Int) ≤ 0 + Int.tdiv 4 2 ∧
       (0 : Int) + Int.tdiv 4 2 ≤ 0 + 10 ∧ (0 : Int) + Int.tdiv 4 2 ≤ 0 + 10) :=
  centroid_inside_closed_bounds ⟨0, 0, 4, 4⟩ ⟨0, 0, 10, 10⟩
    (by decide) (by decide)

end Mono

namespace Mono

unseal List.merge List.mergeSort in
/-- C1 counterexample: in the overlapping layout the class shape `exS` is a
geometric candidate member of both packages, and its declaration is emitted
inside both package blocks (twice in total), not inside exactly one: the
member loop of `render_elements_grouped` never consults the `emitted` set,
so a shape claimed by an earlier container is re-emitted by later candidate
containers. -/
theorem first_match_wins_refuted :
    member_candidate exS.rect exP1.rect = true ∧
    member_candidate exS.rect exP2.rect = true ∧
    member_occurrences overlap_layout "S" = 2 ∧
    ¬ member_occurrences overlap_layout "S" = 1 := by decide

/-- C1 amended: containers are iterated and emitted in the sort by top-edge
Y then left-edge X, but there is no first-match-wins claim step: a
non-package shape is emitted inside the block of every container of which
it is a geometric candidate (so a shape with several candidate containers
is emitted several times), and a shape claimed by at least one container
never reappears among the leftovers. -/
theorem candidate_containers_all_emit (elements : List Element)
    (hnd : (elements.map Element.guid).Nodup) :
    (sorted_pkgs elements).Pairwise (fun p q => pkg_le p q = true) ∧
    (∀ p, p ∈ sorted_pkgs elements → ∀ e, e ∈ elements → e.type ≠ "Package" →
      (e.guid ∈ emitted_members elements p ↔
        (e.guid ≠ p.guid ∧ member_candidate e.rect p.rect = true))) ∧
    (∀ e, e ∈ leftovers elements → e.guid ∉ emitted_guids elements) := by
  refine ⟨?_, ?_, ?_⟩
  · exact List.sorted_mergeSort pkg_le_trans pkg_le_total (packages elements)
  · intro p _ e he ht
    exact mem_emitted_iff elements p hnd e he ht
  · intro e hel
    simp only [leftovers, List.mem_filter, Bool.and_eq_true, Bool.not_eq_true] at hel
    intro habs
    have hc := hel.2.2
    simp only [Bool.not_eq_true'] at hc
    exact absurd (List.elem_iff.mpr habs) (by simpa using hc)

/-- Witness for the amended C1 on the overlapping layout. -/
theorem candidate_containers_all_emit_witness :
    (sorted_pkgs overlap_layout).Pairwise (fun p q => pkg_le p q = true) ∧
    (∀ p, p ∈ sorted_pkgs overlap_layout →
      ∀ e, e ∈ overlap_layout → e.type ≠ "Package" →
      (e.guid ∈ emitted_members overlap_layout p ↔
        (e.guid ≠ p.guid ∧ member_candidate e.rect p.rect = true))) ∧
    (∀ e, e ∈ leftovers overlap_layout → e.guid ∉ emitted_guids overlap_layout) :=
  candidate_containers_all_emit overlap_layout (by decide)

/-- C10: every shape typed Package appears among the emitted top-level
package blocks, is never emitted as a member declaration inside any package
block, and never appears among the leftovers. -/
theorem packages_only_top_level (elements : List Element)
    (hnd : (elements.map Element.guid).Nodup) :
    (∀ e, e ∈ elements → e.type = "Package" → e ∈ sorted_pkgs elements) ∧
    (∀ e, e ∈ elements → e.type = "Package" →
      ∀ p, p ∈ sorted_pkgs elements → e.guid ∉ emitted_members elements p) ∧
    (∀ e, e ∈ leftovers elements → e.type ≠ "Package") := by
  refine ⟨?_, ?_, ?_⟩
  · intro e he ht
    rw [sorted_pkgs, (List.mergeSort_perm (packages elements) pkg_le).mem_iff]
    simp [packages, List.mem_filter, he, ht]
  · intro e he ht p _ habs
    simp only [emitted_members, List.mem_filter, find_guid elements hnd e he,
      bne_iff_ne] at habs
    exact habs.2 ht
  · intro e hel
    simp only [leftovers, List.mem_filter, Bool.and_eq_true, bne_iff_ne] at hel
    exact hel.2.1

/-- Witness for C10 on the overlapping layout. -/
theorem packages_only_top_level_witness :
    (∀ e, e ∈ overlap_layout → e.type = "Package" → e ∈ sorted_pkgs overlap_layout) ∧
    (∀ e, e ∈ overlap_layout → e.type = "Package" →
      ∀ p, p ∈ sorted_pkgs overlap_layout →
        e.guid ∉ emitted_members overlap_layout p) ∧
    (∀ e, e ∈ leftovers overlap_layout → e.type ≠ "Package") :=
  packages_only_top_level overlap_layout (by decide)

end Mono

namespace Mono

/-- A link with an unresolved endpoint contributes no connector record. -/
theorem gather_connector_none (ic : Bool) (elements : List Element)
    (idx : List (Int × String)) (d : DLink × DConn)
    (h : resolve_endpoint_uid elements idx d.1 d.2 "source" = none ∨
         resolve_endpoint_uid elements idx d.1 d.2 "target" = none) :
    gather_connector ic elements idx d = none := by
  by_cases hid : d.1.isHidden
  · simp [gather_connector, hid]
  · rcases h with h | h
    · rcases htgt : resolve_endpoint_uid elements idx d.1 d.2 "target" with _ | t
      · simp [gather_connector, hid, h, htgt]
      · simp [gather_connector, hid, h, htgt]
    · rcases hsrc : resolve_endpoint_uid elements idx d.1 d.2 "source" with _ | t2
      · simp [gather_connector, hid, h, hsrc]
      · simp [gather_connector, hid, h, hsrc]

/-- C7: a connector whose source or target identity resolves to no known
shape through the two-tier resolution is omitted entirely: the gathered
connector list is the one obtained without the dangling link, and the
rendered connector output is unchanged; no failure value is produced. -/
theorem dangling_connector_omitted (ic : Bool) (elements : List Element)
    (idx : List (Int × String)) (l1 l2 : List (DLink × DConn))
    (d : DLink × DConn)
    (h : resolve_endpoint_uid elements idx d.1 d.2 "source" = none ∨
         resolve_endpoint_uid elements idx d.1 d.2 "target" = none) :
    gather_connectors ic elements idx (l1 ++ d :: l2) =
      gather_connectors ic elements idx (l1 ++ l2) ∧
    ∀ cfg : MonoConfig,
      render_connectors cfg elements
          (gather_connectors ic elements idx (l1 ++ d :: l2)) =
        render_connectors cfg elements
          (gather_connectors ic elements idx (l1 ++ l2)) := by
  have h1 : gather_connectors ic elements idx (l1 ++ d :: l2) =
      gather_connectors ic elements idx (l1 ++ l2) := by
    simp [gather_connectors, List.filterMap_append, List.filterMap_cons,
      gather_connector_none ic elements idx d h]
  exact ⟨h1, fun cfg => congrArg (render_connectors cfg elements) h1⟩

/-- Witness for C7: the link `exDangling` points at an instance UID that is
not on the diagram and a supplier element id missing from the index. -/
theorem dangling_connector_omitted_witness :
    gather_connectors true exConnElems [] ([] ++ exDangling :: []) =
      gather_connectors true exConnElems [] ([] ++ []) ∧
    ∀ cfg : MonoConfig,
      render_connectors cfg exConnElems
          (gather_connectors true exConnElems [] ([] ++ exDangling :: [])) =
        render_connectors cfg exConnElems
          (gather_connectors true exConnElems [] ([] ++ [])) :=
  dangling_connector_omitted true exConnElems [] [] [] exDangling
    (Or.inr (by decide))

/-- C8 counterexample: with both-labels policy, a hidden-labels connector
still renders its stereotype (so the label is not suppressed entirely), and
with labels visible the name and the quoted stereotype are joined by a
single space, not by " / ". -/
theorem edge_label_policy_refuted :
    conn_label "both" exConnHidden = " : <<use>>" ∧
    conn_label "both" { exConnHidden with hidden_labels := false } =
      " : flow <<use>>" ∧
    conn_label "both" { exConnHidden with hidden_labels := false } ≠
      " : flow / <<use>>" := by decide

/-- C8 amended: in the structural strategy the selected label parts are
joined with a single space after the " : " separator, and the hidden-labels
flag suppresses only the connector name; the stereotype part is emitted
regardless of the flag. -/
theorem edge_label_amended (c : ConnRec) (hn : c.name ≠ "")
    (hs : c.stereotype ≠ "") :
    (c.hidden_labels = false →
      conn_label "both" c =
        " : " ++ c.name ++ " " ++ "<<" ++ c.stereotype ++ ">>") ∧
    (c.hidden_labels = true →
      conn_label "both" c = " : " ++ "<<" ++ c.stereotype ++ ">>") := by
  have hij : ∀ a b : String, String.intercalate " " [a, b] = a ++ " " ++ b :=
    fun a b => rfl
  have hij1 : ∀ a : String, String.intercalate " " [a] = a := fun a => rfl
  constructor <;> intro hh <;>
    simp [conn_label, hh, hn, hs, hij, hij1, String.append_assoc] <;> rfl

/-- Witness for the amended C8 at the concrete connector. -/
theorem edge_label_amended_witness :
    (exConnHidden.hidden_labels = false →
      conn_label "both" exConnHidden =
        " : " ++ exConnHidden.name ++ " " ++ "<<" ++ exConnHidden.stereotype ++ ">>") ∧
    (exConnHidden.hidden_labels = true →
      conn_label "both" exConnHidden =
        " : " ++ "<<" ++ exConnHidden.stereotype ++ ">>") :=
  edge_label_amended exConnHidden (by decide) (by decide)

end Mono

/-! ## Theorems about the alias allocator -/

namespace Utils

/-- `Nat.toDigitsCore` only prepends to its accumulator. -/
theorem toDigitsCore_acc (fuel : Nat) :
    ∀ (n : Nat) (acc : List Char),
      Nat.toDigitsCore 10 fuel n acc = Nat.toDigitsCore 10 fuel n [] ++ acc := by
  induction fuel with
  | zero => intro n acc; simp [Nat.toDigitsCore]
  | succ fuel ih =>
    intro n acc
    simp only [Nat.toDigitsCore]
    by_cases h : n / 10 = 0
    · simp [h]
    · simp only [h, if_false]
      rw [ih (n / 10) (Nat.digitChar (n % 10) :: acc),
          ih (n / 10) [Nat.digitChar (n % 10)]]
      simp

/-- Appending one digit multiplies the decoded value by ten. -/
theorem dec_decode_append_digit (l : List Char) (c : Char) :
    dec_decode (l ++ [c]) = 10 * dec_decode l + (c.toNat - 48) := by
  simp [dec_decode, List.foldl_append]

/-- Code of the digit characters produced by `Nat.digitChar` below ten. -/
theorem digitChar_toNat (m : Nat) (h : m < 10) :
    (Nat.digitChar m).toNat = 48 + m := by
  interval_cases m <;> rfl

/-- `dec_decode` inverts `Nat.toDigitsCore` given sufficient fuel. -/
theorem dec_decode_toDigitsCore (fuel : Nat) :
    ∀ n : Nat, n < 10 ^ fuel →
      dec_decode (Nat.toDigitsCore 10 fuel n []) = n := by
  induction fuel with
  | zero =>
    intro n hn
    simp only [pow_zero, Nat.lt_one_iff] at hn
    subst hn
    simp [Nat.toDigitsCore, dec_decode]
  | succ fuel ih =>
    intro n hn
    simp only [Nat.toDigitsCore]
    by_cases h : n / 10 = 0
    · have hn10 : n < 10 := by omega
      simp only [h, if_true]
      have hd : dec_decode [Nat.digitChar (n % 10)] =
          (Nat.digitChar (n % 10)).toNat - 48 := by
        simp [dec_decode]
      rw [hd, digitChar_toNat (n % 10) (Nat.mod_lt n (by norm_num))]
      omega
    · simp only [h, if_false]
      rw [toDigitsCore_acc, dec_decode_append_digit]
      have hdiv : n / 10 < 10 ^ fuel := by
        rw [Nat.div_lt_iff_lt_mul (by norm_num : 0 < 10)]
        calc n < 10 ^ (fuel + 1) := hn
        _ = 10 ^ fuel * 10 := by rw [pow_succ]
      rw [ih (n / 10) hdiv, digitChar_toNat (n % 10) (Nat.mod_lt n (by norm_num))]
      omega

/-- Decimal rendering of naturals is injective. -/
theorem natRepr_inj {m n : Nat} (h : (Nat.repr m).data = (Nat.repr n).data) :
    m = n := by
  have hl : Nat.toDigits 10 m = Nat.toDigits 10 n := by
    simpa [Nat.repr, List.asString] using h
  have hm : dec_decode (Nat.toDigitsCore 10 (m + 1) m []) = m :=
    dec_decode_toDigitsCore (m + 1) m
      (lt_trans (Nat.lt_pow_self (by norm_num) m)
        (Nat.pow_lt_pow_succ (by norm_num)))
  have hn : dec_decode (Nat.toDigitsCore 10 (n + 1) n []) = n :=
    dec_decode_toDigitsCore (n + 1) n
      (lt_trans (Nat.lt_pow_self (by norm_num) n)
        (Nat.pow_lt_pow_succ (by norm_num)))
  simp only [Nat.toDigits] at hl
  rw [← hm, ← hn, hl]

/-- Allocation distributes over list append, threading the factory state. -/
theorem human_aliases_append (l1 : List String) :
    ∀ (counts : String → Nat) (l2 : List String),
      human_aliases counts (l1 ++ l2) =
        human_aliases counts l1 ++ human_aliases (counts_after counts l1) l2 := by
  induction l1 with
  | nil => intro counts l2; simp [human_aliases, counts_after]
  | cons n ns ih => intro counts l2; simp [human_aliases, counts_after, ih]

/-- One alias is produced per allocation call. -/
theorem human_aliases_length (l : List String) :
    ∀ counts : String → Nat, (human_aliases counts l).length = l.length := by
  induction l with
  | nil => intro counts; simp [human_aliases]
  | cons n ns ih => intro counts; simp [human_aliases, ih]

/-- The collision table counts exactly the allocations per base slug. -/
theorem counts_after_spec (l : List String) :
    ∀ (counts : String → Nat) (b : String),
      counts_after counts l b = counts b + count_base l b := by
  induction l with
  | nil => intro counts b; simp [counts_after, count_base]
  | cons n ns ih =>
    intro counts b
    simp only [counts_after, ih, count_base, List.filter_cons]
    by_cases h : base_slug n = b
    · subst h
      simp only [make_human, if_pos rfl, beq_self_eq_true, if_true,
        List.length_cons]
      omega
    · have h2 : b ≠ base_slug n := fun hb => h hb.symm
      simp [make_human, beq_iff_eq, h, h2]

/-- The alias returned for a name, positioned after an arbitrary run
prefix: the base slug for its first occurrence, the suffixed form for later
occurrences. -/
theorem human_alias_at (xs ys : List String) (n : String) :
    (human_aliases zero_counts (xs ++ n :: ys))[xs.length]? =
      some (if count_base xs (base_slug n) = 0 then base_slug n
            else base_slug n ++ "_" ++ Nat.repr (count_base xs (base_slug n) + 1)) := by
  rw [human_aliases_append]
  rw [List.getElem?_append_right (by rw [human_aliases_length])]
  simp only [human_aliases_length, Nat.sub_self]
  simp only [human_aliases, make_human, List.getElem?_cons_zero]
  rw [counts_after_spec]
  simp [zero_counts]

/-- Occurrence counts add over list append. -/
theorem count_base_append (l1 l2 : List String) (b : String) :
    count_base (l1 ++ l2) b = count_base l1 b + count_base l2 b := by
  simp [count_base, List.filter_append]

/-- Aliases produced for the same base at different occurrence counts are
distinct strings. -/
theorem alias_formula_inj (b : String) (c1 c2 : Nat) (h : c1 < c2) :
    (if c1 = 0 then b else b ++ "_" ++ Nat.repr (c1 + 1)) ≠
      (if c2 = 0 then b else b ++ "_" ++ Nat.repr (c2 + 1)) := by
  have hc2 : ¬ c2 = 0 := by omega
  rw [if_neg hc2]
  by_cases h1 : c1 = 0
  · rw [if_pos h1]
    intro heq
    have hlen := congrArg String.length heq
    simp only [String.length_append] at hlen
    have hu : ("_" : String).length = 1 := rfl
    omega
  · rw [if_neg h1]
    intro heq
    have hd := congrArg String.data heq
    simp only [String.data_append] at hd
    have hr := List.append_cancel_left hd
    have := natRepr_inj hr
    omega

/-- C2 (code bug): `sanitize_alias` is not a deterministic function of the
guid. For the empty guid the result embeds `abs(hash(os.urandom(4)))`, fresh
randomness at every call, and for a guid with no alphanumeric characters it
embeds the process-salted `abs(hash(guid))`; two runs (modeled by two values
of the non-guid inputs) produce different aliases. -/
theorem sanitize_alias_randomness :
    sanitize_alias 7 0 "" ≠ sanitize_alias 8 0 "" ∧
    sanitize_alias 0 1 "@@@" ≠ sanitize_alias 0 2 "@@@" := by decide

/-- C5 counterexample: under readable aliases the run with display names
"Foo_2", "Foo", "Foo" allocates the token "Foo_2" twice, so the aliases of
a run are not always pairwise distinct. -/
theorem alias_uniqueness_refuted :
    human_aliases zero_counts ["Foo_2", "Foo", "Foo"] =
      ["Foo_2", "Foo", "Foo_2"] ∧
    ¬ (human_aliases zero_counts ["Foo_2", "Foo", "Foo"]).Nodup := by decide

/-- C5 amended: any two allocation calls whose display names share the same
base slug receive distinct tokens; uniqueness across different base slugs
can fail when one name's slug equals the suffixed alias of another (as in
the counterexample). -/
theorem same_base_aliases_distinct (xs ys zs : List String) (n1 n2 : String)
    (hb : base_slug n1 = base_slug n2) :
    (human_aliases zero_counts (xs ++ n1 :: (ys ++ n2 :: zs)))[xs.length]? ≠
      (human_aliases zero_counts
        (xs ++ n1 :: (ys ++ n2 :: zs)))[xs.length + 1 + ys.length]? := by
  have h1 := human_alias_at xs (ys ++ n2 :: zs) n1
  rw [hb] at h1
  have hassoc : xs ++ n1 :: (ys ++ n2 :: zs) = (xs ++ n1 :: ys) ++ (n2 :: zs) := by
    simp
  have h2 := human_alias_at (xs ++ n1 :: ys) zs n2
  rw [← hassoc] at h2
  have hlen : (xs ++ n1 :: ys).length = xs.length + 1 + ys.length := by
    simp
    omega
  rw [hlen] at h2
  rw [h1, h2]
  intro heq
  have heq2 := Option.some.inj heq
  have hc : count_base (xs ++ n1 :: ys) (base_slug n2) =
      count_base xs (base_slug n2) + 1 + count_base ys (base_slug n2) := by
    rw [count_base_append]
    simp only [count_base, List.filter_cons, hb, beq_self_eq_true, if_true,
      List.length_cons]
    omega
  rw [hc] at heq2
  exact alias_formula_inj (base_slug n2) (count_base xs (base_slug n2))
    (count_base xs (base_slug n2) + 1 + count_base ys (base_slug n2))
    (by omega) heq2

/-- Witness for the amended C5: two calls both named "Foo". -/
theorem same_base_aliases_distinct_witness :
    (human_aliases zero_counts ([] ++ "Foo" :: ([] ++ "Foo" :: [])))[(0 : Nat)]? ≠
      (human_aliases zero_counts ([] ++ "Foo" :: ([] ++ "Foo" :: [])))[(1 : Nat)]? :=
  same_base_aliases_distinct [] [] [] "Foo" "Foo" rfl

/-- C6: two shapes named "Foo" receive "Foo" then "Foo_2"; in general the
allocation for a name preceded by k earlier allocations of the same base
slug returns the bare slug when k is zero and the slug suffixed with _(k+1)
otherwise. -/
theorem alias_suffix_sequence :
    human_aliases zero_counts ["Foo", "Foo"] = ["Foo", "Foo_2"] ∧
    ∀ (xs ys : List String) (n : String),
      (human_aliases zero_counts (xs ++ n :: ys))[xs.length]? =
        some (if count_base xs (base_slug n) = 0 then base_slug n
              else base_slug n ++ "_" ++ Nat.repr (count_base xs (base_slug n) + 1)) :=
  ⟨by decide, human_alias_at⟩

end Utils

/-! ## Theorems about the refactored package -/

namespace Ea2puml

/-- C4: when the diagram's type tag has no registered handler, `run` fails
with the "No handler registered" error from `resolve` before any output is
assembled, and never returns a saved file; no fallback strategy renders the
diagram. -/
theorem no_handler_aborts_run (cfg : Config) (d : Diagram)
    (h : _REGISTRY.lookup d.type.trim.toLower = none) :
    run cfg d =
      Except.error ("No handler registered for diagram type: " ++ d.type) ∧
    ∀ out : String × String, run cfg d ≠ Except.ok out := by
  have hres : resolve d.type =
      Except.error ("No handler registered for diagram type: " ++ d.type) := by
    simp [resolve, h]
  have hrun : run cfg d =
      Except.error ("No handler registered for diagram type: " ++ d.type) := by
    by_cases htr : truthy cfg.direction = true <;>
      simp [run, htr, hres]
  refine ⟨hrun, ?_⟩
  intro out habs
  rw [hrun] at habs
  simp at habs

unseal Substring.takeWhileAux Substring.takeRightWhileAux String.mapAux in
/-- Witness for C4: a diagram typed "Class" has no registered handler. -/
theorem no_handler_aborts_run_witness :
    run {} { id := 1, name := "D", type := "Class" } =
      Except.error ("No handler registered for diagram type: " ++ "Class") ∧
    ∀ out : String × String,
      run {} { id := 1, name := "D", type := "Class" } ≠ Except.ok out :=
  no_handler_aborts_run {} { id := 1, name := "D", type := "Class" } (by decide)

end Ea2puml
